import Mathlib

/-! Shallow embedding of `src/thermostat.c`: a thermostat state machine over
a struct of four fields, with operations `initThermostat`, `setTargetTemp`,
`increaseTemp`, `decreaseTemp` and `noChange`.  The C code mutates a struct
through a pointer; here each operation is a pure function from the state to
the new state. -/

/-- The `ThermostatState` enum of the C source. -/
inductive ThermostatState where
  | STATE_IDLE
  | STATE_HEATING
  | STATE_COOLING
deriving DecidableEq

/-- The `FanSpeed` enum of the C source. -/
inductive FanSpeed where
  | FAN_LOW
  | FAN_MEDIUM
  | FAN_HIGH
deriving DecidableEq

/-- The `Thermostat` struct of the C source.  C `int` is modelled as `Int`
(no overflow is relevant at the values the operations produce). -/
structure Thermostat where
  currentTemp : Int
  targetTemp : Int
  state : ThermostatState
  fanSpeed : FanSpeed
deriving DecidableEq

/-- `initThermostat`: resets the state to the fixed defaults
current=20, target=22, Idle, Low. -/
def initThermostat : Thermostat :=
  { currentTemp := 20, targetTemp := 22,
    state := ThermostatState.STATE_IDLE, fanSpeed := FanSpeed.FAN_LOW }

/-- `setTargetTemp`: if `16 <= newTarget <= 30` and `newTarget` differs from
the stored target, store it and derive state and fan speed from the sign of
`newTarget - currentTemp`; otherwise leave the struct untouched. -/
def setTargetTemp (t : Thermostat) (newTarget : Int) : Thermostat :=
  if newTarget ≥ 16 ∧ newTarget ≤ 30 ∧ newTarget ≠ t.targetTemp then
    if newTarget > t.currentTemp then
      { t with targetTemp := newTarget,
               state := ThermostatState.STATE_HEATING,
               fanSpeed := FanSpeed.FAN_HIGH }
    else if newTarget < t.currentTemp then
      { t with targetTemp := newTarget,
               state := ThermostatState.STATE_COOLING,
               fanSpeed := FanSpeed.FAN_HIGH }
    else
      { t with targetTemp := newTarget,
               state := ThermostatState.STATE_IDLE,
               fanSpeed := FanSpeed.FAN_LOW }
  else t

/-- `increaseTemp`: when heating and below target, increment `currentTemp`;
on reaching the target go Idle/Low, otherwise set the fan to Medium.
The C code increments first and then compares, which is the same as
comparing `currentTemp + 1` against the target here. -/
def increaseTemp (t : Thermostat) : Thermostat :=
  if t.state = ThermostatState.STATE_HEATING ∧ t.currentTemp < t.targetTemp then
    if t.currentTemp + 1 = t.targetTemp then
      { t with currentTemp := t.currentTemp + 1,
               state := ThermostatState.STATE_IDLE,
               fanSpeed := FanSpeed.FAN_LOW }
    else
      { t with currentTemp := t.currentTemp + 1,
               fanSpeed := FanSpeed.FAN_MEDIUM }
  else t

/-- `decreaseTemp`: when cooling and above target, decrement `currentTemp`;
on reaching the target go Idle/Low, otherwise set the fan to Medium. -/
def decreaseTemp (t : Thermostat) : Thermostat :=
  if t.state = ThermostatState.STATE_COOLING ∧ t.currentTemp > t.targetTemp then
    if t.currentTemp - 1 = t.targetTemp then
      { t with currentTemp := t.currentTemp - 1,
               state := ThermostatState.STATE_IDLE,
               fanSpeed := FanSpeed.FAN_LOW }
    else
      { t with currentTemp := t.currentTemp - 1,
               fanSpeed := FanSpeed.FAN_MEDIUM }
  else t

/-- `noChange`: when current and target temperatures agree, force Idle/Low;
otherwise leave the struct untouched. -/
def noChange (t : Thermostat) : Thermostat :=
  if t.currentTemp = t.targetTemp then
    { t with state := ThermostatState.STATE_IDLE, fanSpeed := FanSpeed.FAN_LOW }
  else t

/-- Apply an operation `n` times in sequence, modelling `n` successive calls
on the same struct. -/
def applyN (f : Thermostat → Thermostat) : Nat → Thermostat → Thermostat
  | 0, t => t
  | n + 1, t => applyN f n (f t)

/-- Claim C1: for every state `s` and integer `t` with `16 <= t <= 30` and
`t` different from the stored target, `setTargetTemp s t` stores `t`, keeps
`currentTemp`, and sets Heating/High, Cooling/High or Idle/Low according to
whether `t` is above, below or equal to `currentTemp`. -/
theorem setTargetTemp_valid (s : Thermostat) (t : Int)
    (h1 : 16 ≤ t) (h2 : t ≤ 30) (h3 : t ≠ s.targetTemp) :
    (setTargetTemp s t).targetTemp = t ∧
    (setTargetTemp s t).currentTemp = s.currentTemp ∧
    (t > s.currentTemp →
      (setTargetTemp s t).state = ThermostatState.STATE_HEATING ∧
      (setTargetTemp s t).fanSpeed = FanSpeed.FAN_HIGH) ∧
    (t < s.currentTemp →
      (setTargetTemp s t).state = ThermostatState.STATE_COOLING ∧
      (setTargetTemp s t).fanSpeed = FanSpeed.FAN_HIGH) ∧
    (t = s.currentTemp →
      (setTargetTemp s t).state = ThermostatState.STATE_IDLE ∧
      (setTargetTemp s t).fanSpeed = FanSpeed.FAN_LOW) := by
  unfold setTargetTemp
  rw [if_pos ⟨h1, h2, h3⟩]
  split_ifs with hgt hlt
  · exact ⟨rfl, rfl, fun _ => ⟨rfl, rfl⟩,
      fun h => absurd h (by omega), fun h => absurd h (by omega)⟩
  · exact ⟨rfl, rfl, fun h => absurd h (by omega),
      fun _ => ⟨rfl, rfl⟩, fun h => absurd h (by omega)⟩
  · exact ⟨rfl, rfl, fun h => absurd h (by omega),
      fun h => absurd h (by omega), fun _ => ⟨rfl, rfl⟩⟩

/-- Witness for C1 at the initialized state and target 25. -/
theorem setTargetTemp_valid_witness :
    (setTargetTemp initThermostat 25).targetTemp = 25 ∧
    (setTargetTemp initThermostat 25).currentTemp = initThermostat.currentTemp ∧
    (25 > initThermostat.currentTemp →
      (setTargetTemp initThermostat 25).state = ThermostatState.STATE_HEATING ∧
      (setTargetTemp initThermostat 25).fanSpeed = FanSpeed.FAN_HIGH) ∧
    (25 < initThermostat.currentTemp →
      (setTargetTemp initThermostat 25).state = ThermostatState.STATE_COOLING ∧
      (setTargetTemp initThermostat 25).fanSpeed = FanSpeed.FAN_HIGH) ∧
    ((25 : Int) = initThermostat.currentTemp →
      (setTargetTemp initThermostat 25).state = ThermostatState.STATE_IDLE ∧
      (setTargetTemp initThermostat 25).fanSpeed = FanSpeed.FAN_LOW) :=
  setTargetTemp_valid initThermostat 25 (by decide) (by decide) (by decide)

/-- Claim C2: when heating below the target, `increaseTemp` increments
`currentTemp` by exactly 1 and goes Idle/Low on convergence, else
Heating/Medium; when the precondition fails it is a no-op. -/
theorem increaseTemp_spec (s : Thermostat) :
    (s.state = ThermostatState.STATE_HEATING → s.currentTemp < s.targetTemp →
      (increaseTemp s).currentTemp = s.currentTemp + 1 ∧
      (s.currentTemp + 1 = s.targetTemp →
        (increaseTemp s).state = ThermostatState.STATE_IDLE ∧
        (increaseTemp s).fanSpeed = FanSpeed.FAN_LOW) ∧
      (s.currentTemp + 1 ≠ s.targetTemp →
        (increaseTemp s).state = ThermostatState.STATE_HEATING ∧
        (increaseTemp s).fanSpeed = FanSpeed.FAN_MEDIUM)) ∧
    (¬ (s.state = ThermostatState.STATE_HEATING ∧ s.currentTemp < s.targetTemp) →
      increaseTemp s = s) := by
  constructor
  · intro hm hlt
    unfold increaseTemp
    rw [if_pos ⟨hm, hlt⟩]
    split_ifs with heq
    · exact ⟨rfl, fun _ => ⟨rfl, rfl⟩, fun h => absurd heq h⟩
    · exact ⟨rfl, fun h => absurd h heq, fun _ => ⟨hm, rfl⟩⟩
  · intro hn
    unfold increaseTemp
    rw [if_neg hn]

/-- A concrete heating state, one degree below its target, used as a test
input for the advance operations. -/
def heating21 : Thermostat :=
  { currentTemp := 21, targetTemp := 22,
    state := ThermostatState.STATE_HEATING, fanSpeed := FanSpeed.FAN_HIGH }

/-- A concrete cooling state, one degree above its target, used as a test
input for the advance operations. -/
def cooling23 : Thermostat :=
  { currentTemp := 23, targetTemp := 22,
    state := ThermostatState.STATE_COOLING, fanSpeed := FanSpeed.FAN_HIGH }

/-- A concrete state whose temperatures already agree but whose mode is
still Heating, used as a test input for reconciliation. -/
def stale22 : Thermostat :=
  { currentTemp := 22, targetTemp := 22,
    state := ThermostatState.STATE_HEATING, fanSpeed := FanSpeed.FAN_HIGH }

/-- Witness for C2, exercising both the acting branch (heating at 21 toward
22) and the no-op branch (the initialized state is Idle). -/
theorem increaseTemp_spec_witness :
    ((increaseTemp heating21).currentTemp = heating21.currentTemp + 1 ∧
      (heating21.currentTemp + 1 = heating21.targetTemp →
        (increaseTemp heating21).state = ThermostatState.STATE_IDLE ∧
        (increaseTemp heating21).fanSpeed = FanSpeed.FAN_LOW) ∧
      (heating21.currentTemp + 1 ≠ heating21.targetTemp →
        (increaseTemp heating21).state = ThermostatState.STATE_HEATING ∧
        (increaseTemp heating21).fanSpeed = FanSpeed.FAN_MEDIUM)) ∧
    increaseTemp initThermostat = initThermostat :=
  ⟨(increaseTemp_spec heating21).1 rfl (by decide),
   (increaseTemp_spec initThermostat).2 (by decide)⟩

/-- Claim C4: for a target below 16, above 30, or equal to the stored
target, `setTargetTemp` returns the state unchanged. -/
theorem setTargetTemp_noop (s : Thermostat) (t : Int)
    (h : t < 16 ∨ 30 < t ∨ t = s.targetTemp) :
    setTargetTemp s t = s := by
  unfold setTargetTemp
  rw [if_neg]
  rintro ⟨h1, h2, h3⟩
  rcases h with h | h | h
  · omega
  · omega
  · exact h3 h

/-- Witness for C4 at the initialized state and the out-of-range target 15. -/
theorem setTargetTemp_noop_witness : setTargetTemp initThermostat 15 = initThermostat :=
  setTargetTemp_noop initThermostat 15 (Or.inl (by decide))

/-- Claim C5: when cooling above the target, `decreaseTemp` decrements
`currentTemp` by exactly 1 and goes Idle/Low on convergence, else
Cooling/Medium; when the precondition fails it is a no-op. -/
theorem decreaseTemp_spec (s : Thermostat) :
    (s.state = ThermostatState.STATE_COOLING → s.currentTemp > s.targetTemp →
      (decreaseTemp s).currentTemp = s.currentTemp - 1 ∧
      (s.currentTemp - 1 = s.targetTemp →
        (decreaseTemp s).state = ThermostatState.STATE_IDLE ∧
        (decreaseTemp s).fanSpeed = FanSpeed.FAN_LOW) ∧
      (s.currentTemp - 1 ≠ s.targetTemp →
        (decreaseTemp s).state = ThermostatState.STATE_COOLING ∧
        (decreaseTemp s).fanSpeed = FanSpeed.FAN_MEDIUM)) ∧
    (¬ (s.state = ThermostatState.STATE_COOLING ∧ s.currentTemp > s.targetTemp) →
      decreaseTemp s = s) := by
  constructor
  · intro hm hgt
    unfold decreaseTemp
    rw [if_pos ⟨hm, hgt⟩]
    split_ifs with heq
    · exact ⟨rfl, fun _ => ⟨rfl, rfl⟩, fun h => absurd heq h⟩
    · exact ⟨rfl, fun h => absurd h heq, fun _ => ⟨hm, rfl⟩⟩
  · intro hn
    unfold decreaseTemp
    rw [if_neg hn]

/-- Witness for C5, exercising both the acting branch (cooling at 23 toward
22) and the no-op branch (the initialized state is Idle). -/
theorem decreaseTemp_spec_witness :
    ((decreaseTemp cooling23).currentTemp = cooling23.currentTemp - 1 ∧
      (cooling23.currentTemp - 1 = cooling23.targetTemp →
        (decreaseTemp cooling23).state = ThermostatState.STATE_IDLE ∧
        (decreaseTemp cooling23).fanSpeed = FanSpeed.FAN_LOW) ∧
      (cooling23.currentTemp - 1 ≠ cooling23.targetTemp →
        (decreaseTemp cooling23).state = ThermostatState.STATE_COOLING ∧
        (decreaseTemp cooling23).fanSpeed = FanSpeed.FAN_MEDIUM)) ∧
    decreaseTemp initThermostat = initThermostat :=
  ⟨(decreaseTemp_spec cooling23).1 rfl (by decide),
   (decreaseTemp_spec initThermostat).2 (by decide)⟩

/-- Claim C6: when current and target temperatures agree, `noChange` forces
Idle/Low and keeps both temperatures; otherwise it returns the state
unchanged. -/
theorem noChange_spec (s : Thermostat) :
    (s.currentTemp = s.targetTemp →
      (noChange s).state = ThermostatState.STATE_IDLE ∧
      (noChange s).fanSpeed = FanSpeed.FAN_LOW ∧
      (noChange s).currentTemp = s.currentTemp ∧
      (noChange s).targetTemp = s.targetTemp) ∧
    (s.currentTemp ≠ s.targetTemp → noChange s = s) := by
  constructor
  · intro h
    unfold noChange
    rw [if_pos h]
    exact ⟨rfl, rfl, rfl, rfl⟩
  · intro h
    unfold noChange
    rw [if_neg h]

/-- Witness for C6: the converged branch on a Heating state at 22/22 and the
no-op branch on the initialized state (20 versus 22). -/
theorem noChange_spec_witness :
    ((noChange stale22).state = ThermostatState.STATE_IDLE ∧
      (noChange stale22).fanSpeed = FanSpeed.FAN_LOW ∧
      (noChange stale22).currentTemp = stale22.currentTemp ∧
      (noChange stale22).targetTemp = stale22.targetTemp) ∧
    noChange initThermostat = initThermostat :=
  ⟨(noChange_spec stale22).1 rfl, (noChange_spec initThermostat).2 (by decide)⟩

/-- Counterexample for C3: at k = 1 the target 23 is valid and differs from
22, yet after `setTargetTemp 23` and exactly one `increaseTemp` call the
state is Heating/Medium at 21, not Idle/Low at the target (the code needs
k + 2 calls, the distance from currentTemp = 20 to 22 + k). -/
theorem convergence_in_k_false :
    ((16 : Int) ≤ 22 + 1 ∧ (22 : Int) + 1 ≤ 30 ∧ (22 : Int) + 1 ≠ 22) ∧
    ¬ ((applyN increaseTemp 1 (setTargetTemp initThermostat (22 + 1))).state =
          ThermostatState.STATE_IDLE ∧
       (applyN increaseTemp 1 (setTargetTemp initThermostat (22 + 1))).fanSpeed =
          FanSpeed.FAN_LOW ∧
       (applyN increaseTemp 1 (setTargetTemp initThermostat (22 + 1))).currentTemp =
          (applyN increaseTemp 1 (setTargetTemp initThermostat (22 + 1))).targetTemp) := by
  decide

/-- Claim C3 as amended: the heating distance from the initialized state is
`(22 + k) - 20 = k + 2`, and only positive `k` makes `setTargetTemp` select
Heating, so for `1 <= k <= 8` calling `setTargetTemp (22 + k)` and then
`increaseTemp` exactly `k + 2` times reaches Idle/Low with
`currentTemp = targetTemp`. -/
theorem convergence_in_k_plus_two (k : Nat) (h1 : 1 ≤ k) (h2 : k ≤ 8) :
    (applyN increaseTemp (k + 2) (setTargetTemp initThermostat (22 + (k : Int)))).state =
        ThermostatState.STATE_IDLE ∧
    (applyN increaseTemp (k + 2) (setTargetTemp initThermostat (22 + (k : Int)))).fanSpeed =
        FanSpeed.FAN_LOW ∧
    (applyN increaseTemp (k + 2) (setTargetTemp initThermostat (22 + (k : Int)))).currentTemp =
        (applyN increaseTemp (k + 2) (setTargetTemp initThermostat (22 + (k : Int)))).targetTemp := by
  interval_cases k <;> decide

/-- Witness for the amended C3 at k = 3. -/
theorem convergence_in_k_plus_two_witness :
    (applyN increaseTemp (3 + 2) (setTargetTemp initThermostat (22 + (3 : Nat)))).state =
        ThermostatState.STATE_IDLE ∧
    (applyN increaseTemp (3 + 2) (setTargetTemp initThermostat (22 + (3 : Nat)))).fanSpeed =
        FanSpeed.FAN_LOW ∧
    (applyN increaseTemp (3 + 2) (setTargetTemp initThermostat (22 + (3 : Nat)))).currentTemp =
        (applyN increaseTemp (3 + 2) (setTargetTemp initThermostat (22 + (3 : Nat)))).targetTemp :=
  convergence_in_k_plus_two 3 (by decide) (by decide)

/-- States reachable from the initialized thermostat by finite sequences of
the four mutating operations. -/
inductive Reachable : Thermostat → Prop where
  | init : Reachable initThermostat
  | tgt : ∀ {t : Thermostat} (n : Int), Reachable t → Reachable (setTargetTemp t n)
  | heat : ∀ {t : Thermostat}, Reachable t → Reachable (increaseTemp t)
  | cool : ∀ {t : Thermostat}, Reachable t → Reachable (decreaseTemp t)
  | idle : ∀ {t : Thermostat}, Reachable t → Reachable (noChange t)

lemma idleLow_setTargetTemp (t : Thermostat) (n : Int)
    (h : t.state = ThermostatState.STATE_IDLE → t.fanSpeed = FanSpeed.FAN_LOW) :
    (setTargetTemp t n).state = ThermostatState.STATE_IDLE →
      (setTargetTemp t n).fanSpeed = FanSpeed.FAN_LOW := by
  unfold setTargetTemp
  split_ifs <;> simp_all

lemma idleLow_increaseTemp (t : Thermostat)
    (h : t.state = ThermostatState.STATE_IDLE → t.fanSpeed = FanSpeed.FAN_LOW) :
    (increaseTemp t).state = ThermostatState.STATE_IDLE →
      (increaseTemp t).fanSpeed = FanSpeed.FAN_LOW := by
  unfold increaseTemp
  split_ifs <;> simp_all

lemma idleLow_decreaseTemp (t : Thermostat)
    (h : t.state = ThermostatState.STATE_IDLE → t.fanSpeed = FanSpeed.FAN_LOW) :
    (decreaseTemp t).state = ThermostatState.STATE_IDLE →
      (decreaseTemp t).fanSpeed = FanSpeed.FAN_LOW := by
  unfold decreaseTemp
  split_ifs <;> simp_all

lemma idleLow_noChange (t : Thermostat)
    (h : t.state = ThermostatState.STATE_IDLE → t.fanSpeed = FanSpeed.FAN_LOW) :
    (noChange t).state = ThermostatState.STATE_IDLE →
      (noChange t).fanSpeed = FanSpeed.FAN_LOW := by
  unfold noChange
  split_ifs <;> simp_all

/-- Claim C7: on every reachable state, mode Idle implies fan speed Low. -/
theorem reachable_idle_fanLow (s : Thermostat) (h : Reachable s) :
    s.state = ThermostatState.STATE_IDLE → s.fanSpeed = FanSpeed.FAN_LOW := by
  induction h with
  | init => intro _; rfl
  | tgt n _ ih => exact idleLow_setTargetTemp _ n ih
  | heat _ ih => exact idleLow_increaseTemp _ ih
  | cool _ ih => exact idleLow_decreaseTemp _ ih
  | idle _ ih => exact idleLow_noChange _ ih

/-- Witness for C7 at the initialized state, which is reachable and Idle. -/
theorem reachable_idle_fanLow_witness :
    initThermostat.fanSpeed = FanSpeed.FAN_LOW :=
  reachable_idle_fanLow initThermostat Reachable.init rfl

lemma modeTemp_setTargetTemp (t : Thermostat) (n : Int)
    (h : (t.state = ThermostatState.STATE_HEATING → t.currentTemp ≤ t.targetTemp) ∧
         (t.state = ThermostatState.STATE_COOLING → t.targetTemp ≤ t.currentTemp)) :
    ((setTargetTemp t n).state = ThermostatState.STATE_HEATING →
      (setTargetTemp t n).currentTemp ≤ (setTargetTemp t n).targetTemp) ∧
    ((setTargetTemp t n).state = ThermostatState.STATE_COOLING →
      (setTargetTemp t n).targetTemp ≤ (setTargetTemp t n).currentTemp) := by
  unfold setTargetTemp
  split_ifs <;> constructor <;> intro hst <;> simp_all
  all_goals omega

lemma modeTemp_increaseTemp (t : Thermostat)
    (h : (t.state = ThermostatState.STATE_HEATING → t.currentTemp ≤ t.targetTemp) ∧
         (t.state = ThermostatState.STATE_COOLING → t.targetTemp ≤ t.currentTemp)) :
    ((increaseTemp t).state = ThermostatState.STATE_HEATING →
      (increaseTemp t).currentTemp ≤ (increaseTemp t).targetTemp) ∧
    ((increaseTemp t).state = ThermostatState.STATE_COOLING →
      (increaseTemp t).targetTemp ≤ (increaseTemp t).currentTemp) := by
  unfold increaseTemp
  split_ifs <;> constructor <;> intro hst <;> simp_all
  all_goals omega

lemma modeTemp_decreaseTemp (t : Thermostat)
    (h : (t.state = ThermostatState.STATE_HEATING → t.currentTemp ≤ t.targetTemp) ∧
         (t.state = ThermostatState.STATE_COOLING → t.targetTemp ≤ t.currentTemp)) :
    ((decreaseTemp t).state = ThermostatState.STATE_HEATING →
      (decreaseTemp t).currentTemp ≤ (decreaseTemp t).targetTemp) ∧
    ((decreaseTemp t).state = ThermostatState.STATE_COOLING →
      (decreaseTemp t).targetTemp ≤ (decreaseTemp t).currentTemp) := by
  unfold decreaseTemp
  split_ifs <;> constructor <;> intro hst <;> simp_all
  all_goals omega

lemma modeTemp_noChange (t : Thermostat)
    (h : (t.state = ThermostatState.STATE_HEATING → t.currentTemp ≤ t.targetTemp) ∧
         (t.state = ThermostatState.STATE_COOLING → t.targetTemp ≤ t.currentTemp)) :
    ((noChange t).state = ThermostatState.STATE_HEATING →
      (noChange t).currentTemp ≤ (noChange t).targetTemp) ∧
    ((noChange t).state = ThermostatState.STATE_COOLING →
      (noChange t).targetTemp ≤ (noChange t).currentTemp) := by
  unfold noChange
  split_ifs <;> constructor <;> intro hst <;> simp_all

/-- Claim C8: on every reachable state, mode Heating implies the current
temperature is at most the target, and mode Cooling implies it is at least
the target. -/
theorem reachable_mode_temp (s : Thermostat) (h : Reachable s) :
    (s.state = ThermostatState.STATE_HEATING → s.currentTemp ≤ s.targetTemp) ∧
    (s.state = ThermostatState.STATE_COOLING → s.targetTemp ≤ s.currentTemp) := by
  induction h with
  | init => exact ⟨by decide, by decide⟩
  | tgt n _ ih => exact modeTemp_setTargetTemp _ n ih
  | heat _ ih => exact modeTemp_increaseTemp _ ih
  | cool _ ih => exact modeTemp_decreaseTemp _ ih
  | idle _ ih => exact modeTemp_noChange _ ih

/-- Witness for C8 on the reachable Heating state obtained by setting the
target to 25 right after initialization. -/
theorem reachable_mode_temp_witness :
    ((setTargetTemp initThermostat 25).state = ThermostatState.STATE_HEATING →
      (setTargetTemp initThermostat 25).currentTemp ≤
        (setTargetTemp initThermostat 25).targetTemp) ∧
    ((setTargetTemp initThermostat 25).state = ThermostatState.STATE_COOLING →
      (setTargetTemp initThermostat 25).targetTemp ≤
        (setTargetTemp initThermostat 25).currentTemp) :=
  reachable_mode_temp (setTargetTemp initThermostat 25)
    (Reachable.tgt 25 Reachable.init)

/-- Claim C9: `increaseTemp` is the identity whenever the mode is not
Heating, and `decreaseTemp` is the identity whenever the mode is not
Cooling. -/
theorem advance_wrong_mode_noop (s : Thermostat) :
    (s.state ≠ ThermostatState.STATE_HEATING → increaseTemp s = s) ∧
    (s.state ≠ ThermostatState.STATE_COOLING → decreaseTemp s = s) := by
  constructor
  · intro h
    unfold increaseTemp
    rw [if_neg]
    rintro ⟨h1, _⟩
    exact h h1
  · intro h
    unfold decreaseTemp
    rw [if_neg]
    rintro ⟨h1, _⟩
    exact h h1

/-- Witness for C9 on the initialized state, whose mode Idle is neither
Heating nor Cooling. -/
theorem advance_wrong_mode_noop_witness :
    increaseTemp initThermostat = initThermostat ∧
    decreaseTemp initThermostat = initThermostat :=
  ⟨(advance_wrong_mode_noop initThermostat).1 (by decide),
   (advance_wrong_mode_noop initThermostat).2 (by decide)⟩

/-- Claim C10: on every input state, `increaseTemp`, `decreaseTemp` and
`noChange` leave `targetTemp` unchanged; among the five operations only
`setTargetTemp` and `initThermostat` can produce a different target. -/
theorem ticks_preserve_targetTemp (s : Thermostat) :
    (increaseTemp s).targetTemp = s.targetTemp ∧
    (decreaseTemp s).targetTemp = s.targetTemp ∧
    (noChange s).targetTemp = s.targetTemp := by
  refine ⟨?_, ?_, ?_⟩
  · unfold increaseTemp
    split_ifs <;> rfl
  · unfold decreaseTemp
    split_ifs <;> rfl
  · unfold noChange
    split_ifs <;> rfl
